import Mathlib

/-!
Shallow embedding of `src/async-nats/src/client.rs` (the NATS client handle:
command dispatch and request/reply correlation layer).

Modelling conventions:
* The shared mutable state reachable through a `Client` handle — the
  `Arc<AtomicU64>` subscription-id counter and the mpsc command channel the
  worker consumes — is threaded explicitly as a `ClientState`.  All clones of
  one Rust `Client` alias the same counter and channel, which the embedding
  renders as every operation acting on the one threaded `ClientState`.
* Whether the worker side of the command channel has terminated (so that
  `Sender::send` fails) is an input of each send, a `closed : Bool` flag.
* `bytes::Bytes` is a byte list; `HeaderMap` is an association list.
* Fallible operations return `Except`; the `.unwrap()` in `_subscribe` is
  modelled by the `Panics` wrapper.
* `nuid::next()` (the token generator, external) is an input `token` string.
* The oneshot completion signal carried by `Command::Flush` is modelled by a
  `FlushSignal` environment input describing how the worker fulfils it.
* The `AtomicU64` id counter is a `Nat` kept below `2 ^ 64`: `fetch_add`
  returns the old value and stores the successor modulo `2 ^ 64`, as the
  wrapping machine addition does.
-/

namespace AsyncNats

/-- Association-list model of `header::HeaderMap`. -/
abbrev HeaderMap := List (String × String)

/-- Byte-list model of `bytes::Bytes`. -/
abbrev Bytes := List Nat

/-- Numeric model of `status::StatusCode`. -/
abbrev StatusCode := Nat

/-- The reserved "no responders" status (HTTP-style 503 in the source crate). -/
def StatusCode.NO_RESPONDERS : StatusCode := 503

/-- The modulus of the source's `AtomicU64` subscription-id counter. -/
def u64Size : Nat := 2 ^ 64

/-- `Message { subject, payload, headers, status }` as the subscriber sees it. -/
structure Message where
  subject : String
  payload : Bytes
  headers : Option HeaderMap
  status : Option StatusCode
  deriving DecidableEq

/-- The `Command` enum sent to the connection worker.  `Subscribe` carries the
producer endpoint of the per-subscription delivery queue, which the embedding
represents by that queue's bounded `capacity`; `Flush`'s oneshot sender is
modelled separately by `FlushSignal`. -/
inductive Command where
  | publish (subject : String) (payload : Bytes) (respond : Option String)
      (headers : Option HeaderMap)
  | subscribe (sid : Nat) (subject : String) (queue_group : Option String) (capacity : Nat)
  | flush
  deriving DecidableEq

/-- The two `ErrorKind`s the client layer constructs. -/
inductive ErrorKind where
  | notFound
  | brokenPipe
  deriving DecidableEq

/-- An `io::Error`: a kind plus its message. -/
structure IoError where
  kind : ErrorKind
  message : String
  deriving DecidableEq

/-- The boxed `Error` returned by the fallible client operations, keeping the
distinct underlying error sources distinguishable:
`sendError` is `mpsc::error::SendError` (worker side of the channel gone),
`oneshotRecvError` is `oneshot::error::RecvError` (flush completion signal
dropped before fulfilment), `flushError e` is the flush completion signal
fulfilled with an I/O error, and `ioError e` is an `io::Error` built directly
by `request`. -/
inductive Error where
  | sendError
  | oneshotRecvError
  | flushError (e : IoError)
  | ioError (e : IoError)
  deriving DecidableEq

/-- `Subscriber::new(sid, sender.clone(), receiver)`: the subscription id and
the consumer endpoint of the bounded delivery queue, represented by that
queue's capacity. -/
structure Subscriber where
  sid : Nat
  capacity : Nat
  deriving DecidableEq

/-- The `Client` handle's immutable per-handle data: `subscription_capacity`
is copied at construction and never written afterwards.  The `sender` and the
`next_subscription_id` counter are shared state, threaded as `ClientState`. -/
structure Client where
  subscription_capacity : Nat
  deriving DecidableEq

/-- The shared state behind a `Client` and all its clones: the value of the
`AtomicU64` subscription-id counter (a u64, so always below `u64Size`; the
fetch-add wraps) and the sequence of commands accepted into the channel so far
(in channel FIFO order). -/
structure ClientState where
  next_subscription_id : Nat
  commands : List Command
  deriving DecidableEq

/-- `Client::new(sender, capacity)`: counter freshly created at zero; no
commands sent yet through this state. -/
def Client.new (capacity : Nat) : Client × ClientState :=
  (⟨capacity⟩, ⟨0, []⟩)

/-- `#[derive(Clone)]`: cloning copies the capacity and the `Arc`/`Sender`
references; the shared state stays the single threaded `ClientState`. -/
def Client.clone (c : Client) : Client := c

/-- `.panicked` marks an execution that panics instead of returning. -/
inductive Panics (α : Type) where
  | value (a : α)
  | panicked
  deriving DecidableEq

/-- `self.sender.send(cmd).await`: fails with `SendError` when the worker has
dropped the receiver, otherwise appends the command to the channel. -/
def sendCommand (closed : Bool) (cmd : Command) (st : ClientState) :
    Except Error Unit × ClientState :=
  if closed then (.error .sendError, st)
  else (.ok (), { st with commands := st.commands ++ [cmd] })

/-- `Client::publish`. -/
def publish (closed : Bool) (subject : String) (payload : Bytes)
    (st : ClientState) : Except Error Unit × ClientState :=
  match sendCommand closed (.publish subject payload none none) st with
  | (.error e, st1) => (.error e, st1)
  | (.ok _, st1) => (.ok (), st1)

/-- `Client::publish_with_headers`. -/
def publish_with_headers (closed : Bool) (subject : String) (headers : HeaderMap)
    (payload : Bytes) (st : ClientState) : Except Error Unit × ClientState :=
  match sendCommand closed (.publish subject payload none (some headers)) st with
  | (.error e, st1) => (.error e, st1)
  | (.ok _, st1) => (.ok (), st1)

/-- `Client::publish_with_reply`. -/
def publish_with_reply (closed : Bool) (subject : String) (reply : String)
    (payload : Bytes) (st : ClientState) : Except Error Unit × ClientState :=
  match sendCommand closed (.publish subject payload (some reply) none) st with
  | (.error e, st1) => (.error e, st1)
  | (.ok _, st1) => (.ok (), st1)

/-- `Client::publish_with_reply_and_headers`. -/
def publish_with_reply_and_headers (closed : Bool) (subject : String) (reply : String)
    (headers : HeaderMap) (payload : Bytes) (st : ClientState) :
    Except Error Unit × ClientState :=
  match sendCommand closed (.publish subject payload (some reply) (some headers)) st with
  | (.error e, st1) => (.error e, st1)
  | (.ok _, st1) => (.ok (), st1)

/-- `Client::new_inbox`: `format!("_INBOX.{}", nuid::next())`, with the nuid
token an input.  Takes the handle but touches none of its state. -/
def new_inbox (_c : Client) (token : String) : String :=
  "_INBOX." ++ token

/-- `Client::_subscribe`: draws `sid` by `fetch_add(1, Relaxed)` (the old
counter value; the stored u64 counter wraps to `(sid + 1) % u64Size` and is
bumped even on a failed send), builds the bounded delivery queue with
`mpsc::channel(self.subscription_capacity)`, then sends `Command::Subscribe`
with `.unwrap()` — a closed channel therefore panics rather than producing the
declared `io::Error`. -/
def _subscribe (c : Client) (closed : Bool) (subject : String)
    (queue_group : Option String) (st : ClientState) :
    Panics (Except IoError Subscriber) × ClientState :=
  let sid := st.next_subscription_id
  let st1 : ClientState := { st with next_subscription_id := (sid + 1) % u64Size }
  if closed then (.panicked, st1)
  else
    (.value (.ok ⟨sid, c.subscription_capacity⟩),
      { st1 with
        commands :=
          st1.commands ++ [.subscribe sid subject queue_group c.subscription_capacity] })

/-- `Client::subscribe`. -/
def subscribe (c : Client) (closed : Bool) (subject : String) (st : ClientState) :
    Panics (Except IoError Subscriber) × ClientState :=
  _subscribe c closed subject none st

/-- `Client::queue_subscribe`. -/
def queue_subscribe (c : Client) (closed : Bool) (subject : String)
    (queue_group : String) (st : ClientState) :
    Panics (Except IoError Subscriber) × ClientState :=
  _subscribe c closed subject (some queue_group) st

/-- How the worker treats the oneshot completion signal of a flush:
fulfils it with `Ok(())`, fulfils it with an I/O error, or drops it. -/
inductive FlushSignal where
  | fulfilledOk
  | fulfilledErr (e : IoError)
  | dropped
  deriving DecidableEq

/-- `Client::flush`: create a oneshot, send `Command::Flush` (first `?`:
`SendError`), then `rx.await??` (second `?`: `RecvError` when the signal was
dropped; third: the worker's own flush result). -/
def flush (closed : Bool) (signal : FlushSignal) (st : ClientState) :
    Except Error Unit × ClientState :=
  match sendCommand closed .flush st with
  | (.error e, st1) => (.error e, st1)
  | (.ok _, st1) =>
    match signal with
    | .dropped => (.error .oneshotRecvError, st1)
    | .fulfilledErr e => (.error (.flushError e), st1)
    | .fulfilledOk => (.ok (), st1)

/-- Environment of one `request` call: the nuid token, whether the channel is
closed at each of the three sends, how the worker fulfils the flush signal,
and the first message `sub.next().await` yields (`none` = queue closed with no
delivery). -/
structure ReqEnv where
  token : String
  subscribeClosed : Bool
  publishClosed : Bool
  flushClosed : Bool
  flushSignal : FlushSignal
  firstReply : Option Message
  deriving DecidableEq

/-- Completed steps of a `request`, in execution order. -/
inductive Step where
  | newInbox (inbox : String)
  | subscribed (sid : Nat) (subject : String)
  | published (subject : String) (reply : String)
  | flushed
  | awaitedReply
  deriving DecidableEq

/-- Result of a `request`: a reply message, an error, or a panic. -/
inductive Outcome (α : Type) where
  | ok (a : α)
  | err (e : Error)
  | panicked
  deriving DecidableEq

/-- `Client::request`: inbox, subscribe, publish-with-reply, flush, then await
the first delivery; each `?` returns the failure at once.  Also records the
trace of completed steps. -/
def request (c : Client) (env : ReqEnv) (subject : String) (payload : Bytes)
    (st : ClientState) : Outcome Message × ClientState × List Step :=
  let inbox := new_inbox c env.token
  match subscribe c env.subscribeClosed inbox st with
  | (.panicked, st1) => (.panicked, st1, [.newInbox inbox])
  | (.value (.error e), st1) => (.err (.ioError e), st1, [.newInbox inbox])
  | (.value (.ok sub), st1) =>
    match publish_with_reply env.publishClosed subject inbox payload st1 with
    | (.error e, st2) => (.err e, st2, [.newInbox inbox, .subscribed sub.sid inbox])
    | (.ok _, st2) =>
      match flush env.flushClosed env.flushSignal st2 with
      | (.error e, st3) =>
        (.err e, st3,
          [.newInbox inbox, .subscribed sub.sid inbox, .published subject inbox])
      | (.ok _, st3) =>
        match env.firstReply with
        | some message =>
          if message.status = some StatusCode.NO_RESPONDERS then
            (.err (.ioError ⟨.notFound, "nats: no responders"⟩), st3,
              [.newInbox inbox, .subscribed sub.sid inbox, .published subject inbox,
                .flushed, .awaitedReply])
          else
            (.ok message, st3,
              [.newInbox inbox, .subscribed sub.sid inbox, .published subject inbox,
                .flushed, .awaitedReply])
        | none =>
          (.err (.ioError ⟨.brokenPipe, "did not receive any message"⟩), st3,
            [.newInbox inbox, .subscribed sub.sid inbox, .published subject inbox,
              .flushed, .awaitedReply])

/-- `Client::request_with_headers`: identical text to `request` except the
publish step is `publish_with_reply_and_headers`. -/
def request_with_headers (c : Client) (env : ReqEnv) (subject : String)
    (headers : HeaderMap) (payload : Bytes) (st : ClientState) :
    Outcome Message × ClientState × List Step :=
  let inbox := new_inbox c env.token
  match subscribe c env.subscribeClosed inbox st with
  | (.panicked, st1) => (.panicked, st1, [.newInbox inbox])
  | (.value (.error e), st1) => (.err (.ioError e), st1, [.newInbox inbox])
  | (.value (.ok sub), st1) =>
    match publish_with_reply_and_headers env.publishClosed subject inbox headers payload st1 with
    | (.error e, st2) => (.err e, st2, [.newInbox inbox, .subscribed sub.sid inbox])
    | (.ok _, st2) =>
      match flush env.flushClosed env.flushSignal st2 with
      | (.error e, st3) =>
        (.err e, st3,
          [.newInbox inbox, .subscribed sub.sid inbox, .published subject inbox])
      | (.ok _, st3) =>
        match env.firstReply with
        | some message =>
          if message.status = some StatusCode.NO_RESPONDERS then
            (.err (.ioError ⟨.notFound, "nats: no responders"⟩), st3,
              [.newInbox inbox, .subscribed sub.sid inbox, .published subject inbox,
                .flushed, .awaitedReply])
          else
            (.ok message, st3,
              [.newInbox inbox, .subscribed sub.sid inbox, .published subject inbox,
                .flushed, .awaitedReply])
        | none =>
          (.err (.ioError ⟨.brokenPipe, "did not receive any message"⟩), st3,
            [.newInbox inbox, .subscribed sub.sid inbox, .published subject inbox,
              .flushed, .awaitedReply])

/-- One subscribe-type call in a history: `subscribe` or `queue_subscribe`,
with the channel-closure flag the call observes.  Calls made through clones of
the same `Client` act on the same threaded `ClientState`. -/
inductive SubOp where
  | plain (closed : Bool) (subject : String)
  | queued (closed : Bool) (subject : String) (queue_group : String)

/-- Dispatch one `SubOp` to the corresponding client operation. -/
def runSubOp (c : Client) (op : SubOp) (st : ClientState) :
    Panics (Except IoError Subscriber) × ClientState :=
  match op with
  | .plain closed subject => subscribe c closed subject st
  | .queued closed subject queue_group => queue_subscribe c closed subject queue_group st

/-- Run a history of subscribe calls left to right, collecting the ids of the
subscribers actually returned. -/
def runSubscribes (c : Client) : List SubOp → ClientState → List Nat × ClientState
  | [], st => ([], st)
  | op :: ops, st =>
    let r := runSubOp c op st
    let rest := runSubscribes c ops r.2
    match r.1 with
    | .value (.ok sub) => (sub.sid :: rest.1, rest.2)
    | _ => rest

/-- Forget the headers field of a `Publish` command (identity on the rest). -/
def Command.eraseHeaders : Command → Command
  | .publish subject payload respond _ => .publish subject payload respond none
  | c => c

/-- The five steps of a completed `request`, in the order the code runs them. -/
def requestSteps (inbox : String) (sid : Nat) (subject : String) : List Step :=
  [.newInbox inbox, .subscribed sid inbox, .published subject inbox, .flushed, .awaitedReply]

/-- The three commands a fully successful `request` feeds the channel, in send
order. -/
def requestCommands (inbox : String) (sid : Nat) (subject : String) (payload : Bytes)
    (headers : Option HeaderMap) (capacity : Nat) : List Command :=
  [.subscribe sid inbox none capacity, .publish subject payload (some inbox) headers, .flush]

/-- Classification of the awaited first delivery, as `request` performs it. -/
def replyOutcome (reply : Option Message) : Outcome Message :=
  match reply with
  | some message =>
    if message.status = some StatusCode.NO_RESPONDERS then
      .err (.ioError ⟨.notFound, "nats: no responders"⟩)
    else .ok message
  | none => .err (.ioError ⟨.brokenPipe, "did not receive any message"⟩)

/-- Closed-form evaluation of `request`, by case analysis on the environment. -/
lemma request_eq (c : Client) (env : ReqEnv) (subject : String) (payload : Bytes)
    (st : ClientState) :
    request c env subject payload st =
      (if env.subscribeClosed then
        (.panicked, ⟨(st.next_subscription_id + 1) % u64Size, st.commands⟩,
          (requestSteps (new_inbox c env.token) st.next_subscription_id subject).take 1)
      else if env.publishClosed then
        (.err .sendError,
          ⟨(st.next_subscription_id + 1) % u64Size,
            st.commands ++ (requestCommands (new_inbox c env.token) st.next_subscription_id
              subject payload none c.subscription_capacity).take 1⟩,
          (requestSteps (new_inbox c env.token) st.next_subscription_id subject).take 2)
      else if env.flushClosed then
        (.err .sendError,
          ⟨(st.next_subscription_id + 1) % u64Size,
            st.commands ++ (requestCommands (new_inbox c env.token) st.next_subscription_id
              subject payload none c.subscription_capacity).take 2⟩,
          (requestSteps (new_inbox c env.token) st.next_subscription_id subject).take 3)
      else
        match env.flushSignal with
        | .dropped =>
          (.err .oneshotRecvError,
            ⟨(st.next_subscription_id + 1) % u64Size,
              st.commands ++ requestCommands (new_inbox c env.token) st.next_subscription_id
                subject payload none c.subscription_capacity⟩,
            (requestSteps (new_inbox c env.token) st.next_subscription_id subject).take 3)
        | .fulfilledErr e =>
          (.err (.flushError e),
            ⟨(st.next_subscription_id + 1) % u64Size,
              st.commands ++ requestCommands (new_inbox c env.token) st.next_subscription_id
                subject payload none c.subscription_capacity⟩,
            (requestSteps (new_inbox c env.token) st.next_subscription_id subject).take 3)
        | .fulfilledOk =>
          (replyOutcome env.firstReply,
            ⟨(st.next_subscription_id + 1) % u64Size,
              st.commands ++ requestCommands (new_inbox c env.token) st.next_subscription_id
                subject payload none c.subscription_capacity⟩,
            requestSteps (new_inbox c env.token) st.next_subscription_id subject)) := by
  obtain ⟨tok, sc, pc, fc, fs, fr⟩ := env
  cases sc <;> cases pc <;> cases fc <;> cases fs <;> cases fr <;>
    simp [request, subscribe, _subscribe, publish_with_reply, sendCommand, flush,
      requestSteps, requestCommands, replyOutcome, new_inbox] <;> split <;> rfl

/-- Closed-form evaluation of `request_with_headers`. -/
lemma request_with_headers_eq (c : Client) (env : ReqEnv) (subject : String)
    (headers : HeaderMap) (payload : Bytes) (st : ClientState) :
    request_with_headers c env subject headers payload st =
      (if env.subscribeClosed then
        (.panicked, ⟨(st.next_subscription_id + 1) % u64Size, st.commands⟩,
          (requestSteps (new_inbox c env.token) st.next_subscription_id subject).take 1)
      else if env.publishClosed then
        (.err .sendError,
          ⟨(st.next_subscription_id + 1) % u64Size,
            st.commands ++ (requestCommands (new_inbox c env.token) st.next_subscription_id
              subject payload (some headers) c.subscription_capacity).take 1⟩,
          (requestSteps (new_inbox c env.token) st.next_subscription_id subject).take 2)
      else if env.flushClosed then
        (.err .sendError,
          ⟨(st.next_subscription_id + 1) % u64Size,
            st.commands ++ (requestCommands (new_inbox c env.token) st.next_subscription_id
              subject payload (some headers) c.subscription_capacity).take 2⟩,
          (requestSteps (new_inbox c env.token) st.next_subscription_id subject).take 3)
      else
        match env.flushSignal with
        | .dropped =>
          (.err .oneshotRecvError,
            ⟨(st.next_subscription_id + 1) % u64Size,
              st.commands ++ requestCommands (new_inbox c env.token) st.next_subscription_id
                subject payload (some headers) c.subscription_capacity⟩,
            (requestSteps (new_inbox c env.token) st.next_subscription_id subject).take 3)
        | .fulfilledErr e =>
          (.err (.flushError e),
            ⟨(st.next_subscription_id + 1) % u64Size,
              st.commands ++ requestCommands (new_inbox c env.token) st.next_subscription_id
                subject payload (some headers) c.subscription_capacity⟩,
            (requestSteps (new_inbox c env.token) st.next_subscription_id subject).take 3)
        | .fulfilledOk =>
          (replyOutcome env.firstReply,
            ⟨(st.next_subscription_id + 1) % u64Size,
              st.commands ++ requestCommands (new_inbox c env.token) st.next_subscription_id
                subject payload (some headers) c.subscription_capacity⟩,
            requestSteps (new_inbox c env.token) st.next_subscription_id subject)) := by
  obtain ⟨tok, sc, pc, fc, fs, fr⟩ := env
  cases sc <;> cases pc <;> cases fc <;> cases fs <;> cases fr <;>
    simp [request_with_headers, subscribe, _subscribe, publish_with_reply_and_headers,
      sendCommand, flush, requestSteps, requestCommands, replyOutcome, new_inbox] <;> split <;> rfl

/-- Number of steps a `request` completes under a given environment. -/
def stepCount (env : ReqEnv) : Nat :=
  if env.subscribeClosed then 1
  else if env.publishClosed then 2
  else if env.flushClosed then 3
  else
    match env.flushSignal with
    | .fulfilledOk => 5
    | _ => 3

/-- Number of commands a `request` gets accepted into the channel. -/
def cmdCount (env : ReqEnv) : Nat :=
  if env.subscribeClosed then 0
  else if env.publishClosed then 1
  else if env.flushClosed then 2
  else 3

lemma runSubOp_counter (c : Client) (op : SubOp) (st : ClientState) :
    (runSubOp c op st).2.next_subscription_id =
      (st.next_subscription_id + 1) % u64Size := by
  cases op with
  | plain closed subject =>
    cases closed <;> simp [runSubOp, subscribe, _subscribe]
  | queued closed subject queue_group =>
    cases closed <;> simp [runSubOp, queue_subscribe, _subscribe]

lemma runSubOp_ok_sid (c : Client) (op : SubOp) (st : ClientState) (sub : Subscriber)
    (h : (runSubOp c op st).1 = .value (.ok sub)) :
    sub.sid = st.next_subscription_id := by
  cases op with
  | plain closed subject =>
    cases closed <;> simp [runSubOp, subscribe, _subscribe] at h <;> simp [← h]
  | queued closed subject queue_group =>
    cases closed <;> simp [runSubOp, queue_subscribe, _subscribe] at h <;> simp [← h]

lemma runSubOp_counter_lt (c : Client) (op : SubOp) (st : ClientState) :
    (runSubOp c op st).2.next_subscription_id < u64Size := by
  rw [runSubOp_counter]
  exact Nat.mod_lt _ (by decide)

/-- The ids a history returns are the old counter values at a sorted set of
call indices, each reduced modulo `u64Size`. -/
lemma runSubscribes_ids (c : Client) (ops : List SubOp) :
    ∀ st : ClientState, st.next_subscription_id < u64Size →
      ∃ js : List Nat,
        (runSubscribes c ops st).1 =
          js.map (fun i => (st.next_subscription_id + i) % u64Size) ∧
        js.Pairwise (· < ·) ∧ ∀ i ∈ js, i < ops.length := by
  induction ops with
  | nil =>
    intro st h
    exact ⟨[], by simp [runSubscribes], List.Pairwise.nil, by simp⟩
  | cons op ops ih =>
    intro st h
    obtain ⟨js, hjs, hsort, hbound⟩ := ih _ (runSubOp_counter_lt c op st)
    have htail : (runSubscribes c ops (runSubOp c op st).2).1 =
        (js.map (fun j => j + 1)).map
          (fun i => (st.next_subscription_id + i) % u64Size) := by
      rw [hjs, List.map_map]
      refine List.map_congr_left ?_
      intro j hj
      simp only [Function.comp]
      rw [runSubOp_counter, Nat.mod_add_mod]
      congr 1
      omega
    have hsort1 : (js.map (fun j => j + 1)).Pairwise (· < ·) :=
      List.pairwise_map.2 (hsort.imp fun hab => by omega)
    have hbound1 : ∀ i ∈ js.map (fun j => j + 1), i < (op :: ops).length := by
      intro i hi
      obtain ⟨j, hj, rfl⟩ := List.mem_map.1 hi
      have := hbound j hj
      simp only [List.length_cons]
      omega
    simp only [runSubscribes]
    rcases hres : (runSubOp c op st).1 with a | _
    · rcases a with e | sub
      · exact ⟨js.map (fun j => j + 1), by simp only [hres]; exact htail, hsort1, hbound1⟩
      · refine ⟨0 :: js.map (fun j => j + 1), ?_, ?_, ?_⟩
        · simp only [hres, List.map_cons]
          rw [runSubOp_ok_sid c op st sub hres, htail, Nat.add_zero,
            Nat.mod_eq_of_lt h]
        · refine List.pairwise_cons.2 ⟨?_, hsort1⟩
          intro y hy
          obtain ⟨j, hj, rfl⟩ := List.mem_map.1 hy
          omega
        · intro i hi
          rcases List.mem_cons.1 hi with rfl | hi
          · simp
          · exact hbound1 i hi
    · exact ⟨js.map (fun j => j + 1), by simp only [hres]; exact htail, hsort1, hbound1⟩

lemma runSubscribes_counter (c : Client) (ops : List SubOp) :
    ∀ st : ClientState, st.next_subscription_id < u64Size →
      (runSubscribes c ops st).2.next_subscription_id =
        (st.next_subscription_id + ops.length) % u64Size := by
  induction ops with
  | nil => intro st h; simp [runSubscribes, Nat.mod_eq_of_lt h]
  | cons op ops ih =>
    intro st h
    have hstep := ih _ (runSubOp_counter_lt c op st)
    rw [runSubOp_counter] at hstep
    simp only [runSubscribes, List.length_cons]
    rcases hres : (runSubOp c op st).1 with a | _
    · rcases a with e | sub <;>
      · simp only [hres]
        rw [hstep, Nat.mod_add_mod]
        congr 1
        omega
    · simp only [hres]
      rw [hstep, Nat.mod_add_mod]
      congr 1
      omega

/-- Over a history of at most `u64Size` calls the counter cannot wrap back
onto an issued id, so the returned ids are pairwise distinct. -/
lemma runSubscribes_nodup_le (c : Client) (ops : List SubOp) (st : ClientState)
    (h : st.next_subscription_id < u64Size) (hlen : ops.length ≤ u64Size) :
    (runSubscribes c ops st).1.Nodup := by
  obtain ⟨js, hjs, hsort, hbound⟩ := runSubscribes_ids c ops st h
  rw [hjs]
  refine List.Nodup.map_on ?_ (hsort.imp fun hab => Nat.ne_of_lt hab)
  intro x hx y hy hxy
  have hx2 : x < u64Size := lt_of_lt_of_le (hbound x hx) hlen
  have hy2 : y < u64Size := lt_of_lt_of_le (hbound y hy) hlen
  have h2 : x % u64Size = y % u64Size :=
    Nat.ModEq.add_left_cancel' st.next_subscription_id hxy
  rwa [Nat.mod_eq_of_lt hx2, Nat.mod_eq_of_lt hy2] at h2

/-- A history of `n` plain successful subscribes returns the ids
`(counter + k) % u64Size` for `k < n`, in call order. -/
lemma runSubscribes_replicate_plain (c : Client) (subject : String) :
    ∀ (n : Nat) (st : ClientState), st.next_subscription_id < u64Size →
      (runSubscribes c (List.replicate n (SubOp.plain false subject)) st).1 =
        (List.range n).map (fun k => (st.next_subscription_id + k) % u64Size) := by
  intro n
  induction n with
  | zero => intro st h; simp [runSubscribes]
  | succ n ih =>
    intro st h
    have hok : (runSubOp c (SubOp.plain false subject) st).1 =
        Panics.value (Except.ok ⟨st.next_subscription_id, c.subscription_capacity⟩) := by
      simp [runSubOp, subscribe, _subscribe]
    rw [List.replicate_succ]
    simp only [runSubscribes, hok]
    rw [ih _ (runSubOp_counter_lt c (SubOp.plain false subject) st), runSubOp_counter,
      List.range_succ_eq_map, List.map_cons, List.map_map]
    congr 1
    · rw [Nat.add_zero, Nat.mod_eq_of_lt h]
    · refine List.map_congr_left ?_
      intro k hk
      simp only [Function.comp]
      rw [Nat.mod_add_mod]
      congr 1
      omega

lemma runSubOp_commands (c : Client) (op : SubOp) (st : ClientState) :
    ∀ cmd ∈ (runSubOp c op st).2.commands,
      cmd ∈ st.commands ∨
        ∃ sid subj qg, cmd = Command.subscribe sid subj qg c.subscription_capacity := by
  intro cmd hcmd
  cases op with
  | plain closed subject =>
    cases closed <;> simp [runSubOp, subscribe, _subscribe] at hcmd
    · rcases hcmd with hcmd | hcmd
      · exact Or.inl hcmd
      · exact Or.inr ⟨_, _, _, hcmd⟩
    · exact Or.inl hcmd
  | queued closed subject queue_group =>
    cases closed <;> simp [runSubOp, queue_subscribe, _subscribe] at hcmd
    · rcases hcmd with hcmd | hcmd
      · exact Or.inl hcmd
      · exact Or.inr ⟨_, _, _, hcmd⟩
    · exact Or.inl hcmd

lemma runSubscribes_commands (c : Client) (ops : List SubOp) :
    ∀ st : ClientState, ∀ cmd ∈ (runSubscribes c ops st).2.commands,
      cmd ∈ st.commands ∨
        ∃ sid subj qg, cmd = Command.subscribe sid subj qg c.subscription_capacity := by
  induction ops with
  | nil => intro st cmd hcmd; exact Or.inl hcmd
  | cons op ops ih =>
    intro st cmd hcmd
    unfold runSubscribes at hcmd
    have step : ∀ cmd ∈ (runSubscribes c ops (runSubOp c op st).2).2.commands,
        cmd ∈ st.commands ∨
          ∃ sid subj qg, cmd = Command.subscribe sid subj qg c.subscription_capacity := by
      intro cmd hcmd
      rcases ih _ cmd hcmd with h | h
      · exact runSubOp_commands c op st cmd h
      · exact Or.inr h
    rcases hres : (runSubOp c op st).1 with a | _
    · rcases a with e | sub <;> simp only [hres] at hcmd <;> exact step cmd hcmd
    · simp only [hres] at hcmd; exact step cmd hcmd

lemma new_inbox_injective (c : Client) : Function.Injective (new_inbox c) := by
  intro a b h
  simp only [new_inbox, String.ext_iff, String.data_append] at h
  exact String.ext (List.append_cancel_left h)

lemma request_commands_capacity (c : Client) (env : ReqEnv) (subject : String)
    (payload : Bytes) (st : ClientState) :
    ∀ sid subj qg k,
      Command.subscribe sid subj qg k ∈ (request c env subject payload st).2.1.commands →
        Command.subscribe sid subj qg k ∈ st.commands ∨ k = c.subscription_capacity := by
  intro sid subj qg k h
  rw [request_eq] at h
  obtain ⟨tok, sc, pc, fc, fs, fr⟩ := env
  cases sc <;> cases pc <;> cases fc <;> cases fs <;>
    simp [requestCommands, requestSteps] at h <;> tauto

/-- C1: `request` runs exactly inbox-generation, subscribe, publish-with-reply,
flush, await-first-message, in that order; the trace and the commands accepted
into the channel are the corresponding ordered sequences truncated at the first
failing step, with no retries, and each failing step's error (or the panic of
the unwrapped subscribe send) is surfaced at once without running later steps. -/
theorem request_step_order (c : Client) (env : ReqEnv) (subject : String)
    (payload : Bytes) (st : ClientState) :
    (request c env subject payload st).2.2 =
      (requestSteps (new_inbox c env.token) st.next_subscription_id subject).take
        (stepCount env) ∧
    (request c env subject payload st).2.1.commands =
      st.commands ++
        (requestCommands (new_inbox c env.token) st.next_subscription_id subject payload
          none c.subscription_capacity).take (cmdCount env) ∧
    (env.subscribeClosed = true →
      (request c env subject payload st).1 = Outcome.panicked) ∧
    (env.subscribeClosed = false → env.publishClosed = true →
      (request c env subject payload st).1 = Outcome.err Error.sendError) ∧
    (env.subscribeClosed = false → env.publishClosed = false → env.flushClosed = true →
      (request c env subject payload st).1 = Outcome.err Error.sendError) ∧
    (env.subscribeClosed = false → env.publishClosed = false → env.flushClosed = false →
      env.flushSignal = FlushSignal.dropped →
      (request c env subject payload st).1 = Outcome.err Error.oneshotRecvError) ∧
    (∀ e, env.subscribeClosed = false → env.publishClosed = false →
      env.flushClosed = false → env.flushSignal = FlushSignal.fulfilledErr e →
      (request c env subject payload st).1 = Outcome.err (Error.flushError e)) ∧
    (env.subscribeClosed = false → env.publishClosed = false → env.flushClosed = false →
      env.flushSignal = FlushSignal.fulfilledOk →
      (request c env subject payload st).1 = replyOutcome env.firstReply) := by
  obtain ⟨tok, sc, pc, fc, fs, fr⟩ := env
  cases sc <;> cases pc <;> cases fc <;> cases fs <;>
    simp [request_eq, stepCount, cmdCount, requestSteps, requestCommands]

/-- C2: once `request` (or `request_with_headers`) reaches the await-reply
step, a delivered message with the reserved no-responders status yields the
Not-Found-classified error, a queue that closes with no delivery yields the
Broken-Pipe-classified error, any other delivered message is returned as is,
and the three outcomes are pairwise distinguishable. -/
theorem request_reply_classification (c : Client) (env : ReqEnv) (subject : String)
    (headers : HeaderMap) (payload : Bytes) (st : ClientState)
    (hsc : env.subscribeClosed = false) (hpc : env.publishClosed = false)
    (hfc : env.flushClosed = false) (hfs : env.flushSignal = FlushSignal.fulfilledOk) :
    (env.firstReply = none →
      (request c env subject payload st).1 =
        Outcome.err (Error.ioError ⟨ErrorKind.brokenPipe, "did not receive any message"⟩) ∧
      (request_with_headers c env subject headers payload st).1 =
        Outcome.err (Error.ioError ⟨ErrorKind.brokenPipe, "did not receive any message"⟩)) ∧
    (∀ m, env.firstReply = some m → m.status = some StatusCode.NO_RESPONDERS →
      (request c env subject payload st).1 =
        Outcome.err (Error.ioError ⟨ErrorKind.notFound, "nats: no responders"⟩) ∧
      (request_with_headers c env subject headers payload st).1 =
        Outcome.err (Error.ioError ⟨ErrorKind.notFound, "nats: no responders"⟩)) ∧
    (∀ m, env.firstReply = some m → m.status ≠ some StatusCode.NO_RESPONDERS →
      (request c env subject payload st).1 = Outcome.ok m ∧
      (request_with_headers c env subject headers payload st).1 = Outcome.ok m) ∧
    (∀ m : Message,
      (Outcome.ok m : Outcome Message) ≠
        Outcome.err (Error.ioError ⟨ErrorKind.notFound, "nats: no responders"⟩) ∧
      (Outcome.ok m : Outcome Message) ≠
        Outcome.err (Error.ioError ⟨ErrorKind.brokenPipe, "did not receive any message"⟩)) ∧
    ((Outcome.err (Error.ioError ⟨ErrorKind.notFound, "nats: no responders"⟩) :
        Outcome Message) ≠
      Outcome.err (Error.ioError ⟨ErrorKind.brokenPipe, "did not receive any message"⟩)) := by
  refine ⟨?_, ?_, ?_, ?_, ?_⟩
  · intro h
    constructor <;>
      simp [request_eq, request_with_headers_eq, hsc, hpc, hfc, hfs, h, replyOutcome]
  · intro m hm hstat
    constructor <;>
      simp [request_eq, request_with_headers_eq, hsc, hpc, hfc, hfs, hm, hstat, replyOutcome]
  · intro m hm hstat
    constructor <;>
      simp [request_eq, request_with_headers_eq, hsc, hpc, hfc, hfs, hm, hstat, replyOutcome]
  · intro m; constructor <;> simp
  · simp

/-- Witness for C2 at a concrete closed-queue run: no delivery classifies as
the Broken-Pipe error. -/
theorem request_reply_classification_witness :
    (request ⟨4⟩ ⟨"t", false, false, false, FlushSignal.fulfilledOk, none⟩ "svc" []
        ⟨0, []⟩).1 =
      Outcome.err (Error.ioError ⟨ErrorKind.brokenPipe, "did not receive any message"⟩) :=
  ((request_reply_classification ⟨4⟩ ⟨"t", false, false, false, FlushSignal.fulfilledOk, none⟩
    "svc" [] [] ⟨0, []⟩ rfl rfl rfl rfl).1 rfl).1

/-- C3 (code behaviour at the failing input): with the worker side of the
command channel terminated, `subscribe` and `queue_subscribe` panic on the
unwrapped send instead of returning the channel-closed error the spec
requires. -/
theorem subscribe_closed_panics :
    (subscribe ⟨16⟩ true "events" ⟨0, []⟩).1 = Panics.panicked ∧
    (queue_subscribe ⟨16⟩ true "events" "workers" ⟨0, []⟩).1 = Panics.panicked :=
  ⟨rfl, rfl⟩

/-- C4: `flush` succeeds exactly when the command was sent and the signal was
fulfilled with success; a closed channel, a dropped signal and a signal
fulfilled with an error each surface as a distinct error. -/
theorem flush_characterization (closed : Bool) (signal : FlushSignal) (st : ClientState) :
    ((flush closed signal st).1 = Except.ok () ↔
      closed = false ∧ signal = FlushSignal.fulfilledOk) ∧
    ((flush closed signal st).1 = Except.error Error.sendError ↔ closed = true) ∧
    ((flush closed signal st).1 = Except.error Error.oneshotRecvError ↔
      closed = false ∧ signal = FlushSignal.dropped) ∧
    (∀ e, (flush closed signal st).1 = Except.error (Error.flushError e) ↔
      closed = false ∧ signal = FlushSignal.fulfilledErr e) ∧
    (closed = false →
      (flush closed signal st).2.commands = st.commands ++ [Command.flush]) ∧
    (closed = true → (flush closed signal st).2 = st) ∧
    (Error.sendError ≠ Error.oneshotRecvError ∧
      (∀ e, Error.sendError ≠ Error.flushError e) ∧
      (∀ e, Error.oneshotRecvError ≠ Error.flushError e)) := by
  cases closed <;> cases signal <;> simp [flush, sendCommand]

/-- C5 counterexample: from a freshly constructed Client, a history of
`2 ^ 64 + 1` subscriptions wraps the `AtomicU64` counter past its modulus and
reissues the first id, so the returned subscription ids are not pairwise
distinct — the unconditional claim fails on the code. -/
theorem subscription_ids_wrap_counterexample :
    ¬ (runSubscribes (Client.new 8).1
        (List.replicate (u64Size + 1) (SubOp.plain false "subj"))
        (Client.new 8).2).1.Nodup := by
  intro hnd
  rw [runSubscribes_replicate_plain (Client.new 8).1 "subj" (u64Size + 1)
    (Client.new 8).2 (by decide)] at hnd
  simp only [List.range_succ, List.map_append, List.map_cons, List.map_nil] at hnd
  obtain ⟨h1, h2, hdisj⟩ := List.nodup_append.1 hnd
  have hmem1 : (0 : Nat) ∈ (List.range u64Size).map
      (fun k => ((Client.new 8).2.next_subscription_id + k) % u64Size) :=
    List.mem_map.2 ⟨0, List.mem_range.2 (by decide), by decide⟩
  have hmem2 : (0 : Nat) ∈
      [((Client.new 8).2.next_subscription_id + u64Size) % u64Size] :=
    List.mem_singleton.2 (by decide)
  exact hdisj hmem1 hmem2

/-- C5 (amended): the id counter starts at zero at `Client::new`, clones share
it (the embedding threads the one `ClientState` through every call), each call
draws its id by fetch-and-add one modulo `2 ^ 64`, and the ids returned over
any history of at most `2 ^ 64` subscribe calls are pairwise distinct; beyond
that bound the u64 counter wraps and ids repeat. -/
theorem subscription_ids_distinct_bounded (c : Client) (cap : Nat) (ops : List SubOp)
    (st : ClientState) (hst : st.next_subscription_id < u64Size)
    (hlen : ops.length ≤ u64Size) :
    (Client.new cap).2.next_subscription_id = 0 ∧
    Client.clone c = c ∧
    (runSubscribes c ops st).1.Nodup ∧
    (runSubscribes c ops st).2.next_subscription_id =
      (st.next_subscription_id + ops.length) % u64Size :=
  ⟨rfl, rfl, runSubscribes_nodup_le c ops st hst hlen,
    runSubscribes_counter c ops st hst⟩

/-- Witness for C5 (amended) at a concrete two-call history from a fresh
client. -/
theorem subscription_ids_distinct_bounded_witness :
    (runSubscribes ⟨8⟩ [SubOp.plain false "a", SubOp.queued false "b" "g"]
      ⟨0, []⟩).1.Nodup :=
  (subscription_ids_distinct_bounded ⟨8⟩ 8
    [SubOp.plain false "a", SubOp.queued false "b" "g"] ⟨0, []⟩
    (by decide) (by decide)).2.2.1

/-- C6: `new_inbox` returns exactly `"_INBOX." ++ token`, and distinct tokens
give pairwise distinct inbox subjects; the operation reads no mutable client
state (its type consumes only the handle and the token). -/
theorem new_inbox_spec (c : Client) (ts : List String) (h : ts.Nodup) :
    (∀ t, new_inbox c t = "_INBOX." ++ t) ∧ (ts.map (new_inbox c)).Nodup :=
  ⟨fun _ => rfl, h.map (new_inbox_injective c)⟩

/-- Witness for C6 at two concrete distinct tokens. -/
theorem new_inbox_spec_witness :
    (∀ t, new_inbox ⟨32⟩ t = "_INBOX." ++ t) ∧
    ((["a", "b"].map (new_inbox ⟨32⟩)).Nodup) :=
  new_inbox_spec ⟨32⟩ ["a", "b"] (by decide)

/-- C7: each publish variant enqueues exactly one `Publish` command with the
claimed reply-to and headers fields, succeeds exactly when the command is
accepted into the channel, and fails with the channel-closed error exactly
when the worker side has terminated. -/
theorem publish_enqueues_one_command (closed : Bool) (subject reply : String)
    (headers : HeaderMap) (payload : Bytes) (st : ClientState) :
    publish closed subject payload st =
      (if closed then (Except.error Error.sendError, st)
       else (Except.ok (),
         { st with commands := st.commands ++ [Command.publish subject payload none none] })) ∧
    publish_with_headers closed subject headers payload st =
      (if closed then (Except.error Error.sendError, st)
       else (Except.ok (),
         { st with
           commands := st.commands ++ [Command.publish subject payload none (some headers)] })) ∧
    publish_with_reply closed subject reply payload st =
      (if closed then (Except.error Error.sendError, st)
       else (Except.ok (),
         { st with
           commands := st.commands ++ [Command.publish subject payload (some reply) none] })) ∧
    publish_with_reply_and_headers closed subject reply headers payload st =
      (if closed then (Except.error Error.sendError, st)
       else (Except.ok (),
         { st with
           commands :=
             st.commands ++ [Command.publish subject payload (some reply) (some headers)] })) := by
  cases closed <;>
    simp [publish, publish_with_headers, publish_with_reply,
      publish_with_reply_and_headers, sendCommand]

/-- C8: the delivery-queue capacity is fixed once at `Client::new`, cloning
preserves it, and every subscription created by `_subscribe`, by a history of
subscribe calls, or internally by `request`, carries exactly that capacity. -/
theorem subscription_capacity_uniform (c : Client) (cap : Nat) (closed : Bool)
    (subject : String) (queue_group : Option String) (st : ClientState)
    (ops : List SubOp) (env : ReqEnv) (payload : Bytes) :
    (Client.new cap).1.subscription_capacity = cap ∧
    (Client.clone c).subscription_capacity = c.subscription_capacity ∧
    (∀ sub, (_subscribe c closed subject queue_group st).1 =
        Panics.value (Except.ok sub) →
      sub.capacity = c.subscription_capacity) ∧
    (closed = false →
      (_subscribe c closed subject queue_group st).2.commands =
        st.commands ++ [Command.subscribe st.next_subscription_id subject queue_group
          c.subscription_capacity]) ∧
    (∀ sid subj qg k,
      Command.subscribe sid subj qg k ∈ (runSubscribes c ops st).2.commands →
        Command.subscribe sid subj qg k ∈ st.commands ∨ k = c.subscription_capacity) ∧
    (∀ sid subj qg k,
      Command.subscribe sid subj qg k ∈ (request c env subject payload st).2.1.commands →
        Command.subscribe sid subj qg k ∈ st.commands ∨ k = c.subscription_capacity) := by
  refine ⟨rfl, rfl, ?_, ?_, ?_, request_commands_capacity c env subject payload st⟩
  · intro sub hsub
    cases closed <;> simp [_subscribe] at hsub
    rw [← hsub]
  · intro h; subst h; simp [_subscribe]
  · intro sid subj qg k hmem
    rcases runSubscribes_commands c ops st _ hmem with h | ⟨sid2, subj2, qg2, hEq⟩
    · exact Or.inl h
    · refine Or.inr ?_
      injection hEq with h1 h2 h3 h4

/-- C9: `_subscribe` (and so `subscribe` and `queue_subscribe`) either panics
(closed channel) or returns `Ok` with a subscriber whose id equals the id in
the `Subscribe` command it sent; the declared `Err` branch is never produced. -/
theorem subscribe_never_errs (c : Client) (closed : Bool) (subject qg : String)
    (queue_group : Option String) (st : ClientState) :
    ((_subscribe c closed subject queue_group st).1 = Panics.panicked ∨
      (_subscribe c closed subject queue_group st).1 =
        Panics.value (Except.ok ⟨st.next_subscription_id, c.subscription_capacity⟩)) ∧
    (∀ e, (_subscribe c closed subject queue_group st).1 ≠
      Panics.value (Except.error e)) ∧
    (∀ e, (subscribe c closed subject st).1 ≠ Panics.value (Except.error e)) ∧
    (∀ e, (queue_subscribe c closed subject qg st).1 ≠ Panics.value (Except.error e)) ∧
    (closed = true → (_subscribe c closed subject queue_group st).1 = Panics.panicked) ∧
    (closed = false →
      (subscribe c closed subject st).1 =
        Panics.value (Except.ok ⟨st.next_subscription_id, c.subscription_capacity⟩) ∧
      (subscribe c closed subject st).2.commands =
        st.commands ++ [Command.subscribe st.next_subscription_id subject none
          c.subscription_capacity] ∧
      (queue_subscribe c closed subject qg st).1 =
        Panics.value (Except.ok ⟨st.next_subscription_id, c.subscription_capacity⟩) ∧
      (queue_subscribe c closed subject qg st).2.commands =
        st.commands ++ [Command.subscribe st.next_subscription_id subject (some qg)
          c.subscription_capacity]) := by
  cases closed <;> simp [subscribe, queue_subscribe, _subscribe]

/-- C10: `request_with_headers` behaves exactly as `request` under the same
environment — same outcome, same trace, same counter — and its channel content
differs only in the headers field of the single `Publish` command. -/
theorem request_with_headers_refines_request (c : Client) (env : ReqEnv)
    (subject : String) (headers : HeaderMap) (payload : Bytes) (st : ClientState) :
    (request_with_headers c env subject headers payload st).1 =
      (request c env subject payload st).1 ∧
    (request_with_headers c env subject headers payload st).2.2 =
      (request c env subject payload st).2.2 ∧
    (request_with_headers c env subject headers payload st).2.1.next_subscription_id =
      (request c env subject payload st).2.1.next_subscription_id ∧
    (request_with_headers c env subject headers payload st).2.1.commands.map
        Command.eraseHeaders =
      (request c env subject payload st).2.1.commands.map Command.eraseHeaders ∧
    (env.subscribeClosed = false → env.publishClosed = false →
      Command.publish subject payload (some (new_inbox c env.token)) (some headers) ∈
        (request_with_headers c env subject headers payload st).2.1.commands ∧
      Command.publish subject payload (some (new_inbox c env.token)) none ∈
        (request c env subject payload st).2.1.commands) := by
  obtain ⟨tok, sc, pc, fc, fs, fr⟩ := env
  cases sc <;> cases pc <;> cases fc <;> cases fs <;>
    simp [request_eq, request_with_headers_eq, requestSteps, requestCommands,
      Command.eraseHeaders, new_inbox]

end AsyncNats
